import Mathlib

set_option maxRecDepth 40000

/-
Verification development for the four-track recorder DSP engine
(src/src/dsp/fourtrack.c).  The engine's mutable globals are modelled as an
explicit state record; control calls (plugin_set_param) become a step
function over a command type; the render callback (plugin_render_block)
becomes a state transition plus an output block.  C `float` level/pan values
are modelled with exact rationals and `int` sample positions with Nat/Int
(the claims under study are control-flow and integer-arithmetic properties,
not float-rounding properties).  The metronome click waveform value
`(int16_t)(sinf(beat_pos*0.15f)*(1-t)*0.3f*32767)` is transcendental, so the
render function is parameterized by an abstract waveform `cw : Nat → Int`;
the placement logic (which sample offsets receive a click) is embedded
exactly.
-/

namespace FourTrack

/-- Transport state, mirroring `transport_state_t`. -/
inductive Transport where
  | stopped
  | playing
  | recording
  | countin
deriving DecidableEq

/-- MIDI routing mode, mirroring `midi_routing_mode_t`. -/
inductive MidiRoutingMode where
  | selectedMode
  | splitChannels
deriving DecidableEq

/-- MIDI event source tag (MOVE_MIDI_SOURCE_INTERNAL / _EXTERNAL / other). -/
inductive MidiSource where
  | internal
  | external
  | host
deriving DecidableEq

/-- Per-track state, mirroring `track_t`.  The int16 audio buffer is a total
function `Nat → Int`; `hasChain` models
`chain_instance != NULL && chain_patch_idx >= 0` (the `has_chain` test used
for monitoring). -/
structure Track where
  buffer : Nat → Int
  length : Nat
  level : ℚ
  pan : ℚ
  muted : Bool
  solo : Bool
  armed : Bool
  monitoring : Bool
  hasChain : Bool

/-- The engine's global state (the `g_*` variables of fourtrack.c). -/
structure FTState where
  tracks : Fin 4 → Track
  selected : Fin 4
  transport : Transport
  playhead : Nat
  loopStart : Nat
  loopEnd : Nat
  loopEnabled : Bool
  metronomeEnabled : Bool
  tempoBpm : Nat
  samplesPerBeat : Nat
  countinEnabled : Bool
  countinCounter : Int
  countinTotal : Int
  recordSeconds : Nat
  anySolo : Bool
  midiRouting : MidiRoutingMode

/-- Track state after `init_tracks`: empty buffer, level 0.8, pan 0, only
track 0 has monitoring on. -/
def initTrack (monitoring : Bool) : Track :=
  { buffer := fun _ => 0
  , length := 0
  , level := (4 : ℚ) / 5
  , pan := 0
  , muted := false
  , solo := false
  , armed := false
  , monitoring := monitoring
  , hasChain := false }

/-- State after `plugin_on_load`: tracks initialized, tempo 120 with
`update_metronome_timing` applied (samples_per_beat = 44100*60/120),
transport stopped, record limit at the 300 s maximum. -/
def initState : FTState :=
  { tracks := fun t => initTrack (decide (t = 0))
  , selected := 0
  , transport := .stopped
  , playhead := 0
  , loopStart := 0
  , loopEnd := 0
  , loopEnabled := false
  , metronomeEnabled := false
  , tempoBpm := 120
  , samplesPerBeat := 44100 * 60 / 120
  , countinEnabled := false
  , countinCounter := 0
  , countinTotal := 0
  , recordSeconds := 300
  , anySolo := false
  , midiRouting := .selectedMode }

/-- Parse-and-range-check of a track index as done by
`if (track >= 0 && track < NUM_TRACKS)`. -/
def trackIdx? (v : Int) : Option (Fin 4) :=
  if h : 0 ≤ v ∧ v < 4 then some ⟨v.toNat, by omega⟩ else none

/-- Functional update of one track. -/
def updTrack (s : FTState) (t : Fin 4) (f : Track → Track) : FTState :=
  { s with tracks := fun u => if u = t then f (s.tracks u) else s.tracks u }

/-- `update_solo_state`: any track soloed? -/
def anySoloOf (tracks : Fin 4 → Track) : Bool :=
  (tracks 0).solo || (tracks 1).solo || (tracks 2).solo || (tracks 3).solo

/-- `any_track_armed`. -/
def anyTrackArmed (s : FTState) : Bool :=
  (s.tracks 0).armed || (s.tracks 1).armed || (s.tracks 2).armed || (s.tracks 3).armed

/-- `start_recording`: rejected when no track is armed; count-in only when
count-in is enabled AND the transport is stopped; otherwise punch-in straight
to recording.  Count-in initialization snaps to the next beat boundary by
starting the counter negative. -/
def startRecording (s : FTState) : FTState :=
  if anyTrackArmed s = false then s
  else if s.countinEnabled = true ∧ s.transport = .stopped then
    let beatPos := s.playhead % s.samplesPerBeat
    let samplesToNextBeat : Nat := if beatPos = 0 then 0 else s.samplesPerBeat - beatPos
    { s with countinCounter := -(samplesToNextBeat : Int)
           , countinTotal := ((4 * s.samplesPerBeat : Nat) : Int)
           , transport := .countin }
  else
    { s with transport := .recording }

/-- `toggle_recording`. -/
def toggleRecording (s : FTState) : FTState :=
  if s.transport = .recording then { s with transport := .playing }
  else startRecording s

/-- Control commands accepted by `plugin_set_param` that touch the engine
state under study.  String values are modelled already parsed (`atoi` /
`sscanf`); patch loading through the external chain collaborator is reduced
to its observable effect on `hasChain`. -/
inductive Cmd where
  | selectTrack (v : Int)
  | toggleArm (v : Option Int)
  | toggleMonitoring (v : Option Int)
  | trackLevel (t : Int) (x : ℚ)
  | trackPan (t : Int) (x : ℚ)
  | trackMute (t : Int)
  | trackSolo (t : Int)
  | clearTrack (t : Int)
  | transportPlay
  | transportStop
  | transportRecord
  | gotoStart
  | gotoEnd
  | jumpBars (n : Int)
  | tempo (n : Int)
  | metronome (n : Int)
  | countin (n : Int)
  | midiRouting (split : Bool)
  | toggleMidiRouting
  | setLoopEnabled (n : Int)
  | loadPatchResult (ok : Bool)
  | clearPatch (t : Int)
  | toggleMute (t : Int)
  | recordSeconds (n : Int)

/-- `plugin_set_param`, one branch per command key. -/
def step (s : FTState) : Cmd → FTState
  | .selectTrack v =>
      match trackIdx? v with
      | some t => { s with selected := t }
      | none => s
  | .toggleArm v =>
      match (match v with | some iv => trackIdx? iv | none => some s.selected) with
      | some t => updTrack s t fun tr => { tr with armed := !tr.armed }
      | none => s
  | .toggleMonitoring v =>
      match (match v with | some iv => trackIdx? iv | none => some s.selected) with
      | some t => updTrack s t fun tr => { tr with monitoring := !tr.monitoring }
      | none => s
  | .trackLevel t x =>
      match trackIdx? t with
      | some u => updTrack s u fun tr => { tr with level := x }
      | none => s
  | .trackPan t x =>
      match trackIdx? t with
      | some u => updTrack s u fun tr => { tr with pan := x }
      | none => s
  | .trackMute t =>
      match trackIdx? t with
      | some u => updTrack s u fun tr => { tr with muted := !tr.muted }
      | none => s
  | .trackSolo t =>
      match trackIdx? t with
      | some u =>
          let s1 := updTrack s u fun tr => { tr with solo := !tr.solo }
          { s1 with anySolo := anySoloOf s1.tracks }
      | none => s
  | .clearTrack t =>
      match trackIdx? t with
      | some u => updTrack s u fun tr => { tr with buffer := fun _ => 0, length := 0 }
      | none => s
  | .transportPlay => { s with transport := .playing }
  | .transportStop => { s with transport := .stopped }
  | .transportRecord => toggleRecording s
  | .gotoStart => { s with playhead := 0 }
  | .gotoEnd =>
      if 0 < (s.tracks s.selected).length then
        { s with playhead := (s.tracks s.selected).length / 2 }
      else s
  | .jumpBars n =>
      let samplesPerBar : Nat := 44100 * 60 * 4 / s.tempoBpm
      { s with playhead := ((s.playhead : Int) + n * (samplesPerBar : Int)).toNat }
  | .tempo n =>
      let bpm : Nat := if n < 20 then 20 else if 300 < n then 300 else n.toNat
      { s with tempoBpm := bpm, samplesPerBeat := 44100 * 60 / bpm }
  | .metronome n => { s with metronomeEnabled := decide (n ≠ 0) }
  | .countin n => { s with countinEnabled := decide (n ≠ 0) }
  | .midiRouting split =>
      { s with midiRouting := if split then .splitChannels else .selectedMode }
  | .toggleMidiRouting =>
      { s with midiRouting :=
          match s.midiRouting with
          | .selectedMode => .splitChannels
          | .splitChannels => .selectedMode }
  | .setLoopEnabled n => { s with loopEnabled := decide (n ≠ 0) }
  | .loadPatchResult ok =>
      if ok then updTrack s s.selected (fun tr => { tr with hasChain := true }) else s
  | .clearPatch t =>
      match trackIdx? t with
      | some u => updTrack s u fun tr => { tr with hasChain := false }
      | none => s
  | .toggleMute t =>
      match trackIdx? t with
      | some u => updTrack s u fun tr => { tr with muted := !tr.muted }
      | none => s
  | .recordSeconds n =>
      if 10 ≤ n ∧ n ≤ 300 then { s with recordSeconds := n.toNat } else s

/-! ## MIDI routing (`plugin_on_midi`) -/

/-- The routing decision of `plugin_on_midi`: which track (if any) receives
an event with the given status byte from the given source.  In split mode
the channel is the low nibble of the status byte and channels ≥ 4 are
dropped. -/
def routeMidi (mode : MidiRoutingMode) (sel : Fin 4) (source : MidiSource)
    (status : Nat) : Option (Fin 4) :=
  match source with
  | .internal => some sel
  | .external =>
      match mode with
      | .splitChannels =>
          let channel := status % 16
          if h : channel < 4 then some ⟨channel, h⟩ else none
      | .selectedMode => some sel
  | .host => some sel

/-- Routing of an incoming MIDI event against the current engine state. -/
def onMidiTarget (s : FTState) (source : MidiSource) (status : Nat) : Option (Fin 4) :=
  routeMidi s.midiRouting s.selected source status

/-! ## Render pipeline (`plugin_render_block`) -/

/-- int16 saturation as used at the final output stage and in the click
sub-buffer. -/
def clamp16 (x : Int) : Int :=
  if 32767 < x then 32767 else if x < -32768 then -32768 else x

/-- Left pan gain: `pan_l = (pan < 0) ? 1 : 1 - pan`. -/
def panL (pan : ℚ) : ℚ := if pan < 0 then 1 else 1 - pan

/-- Right pan gain: `pan_r = (pan > 0) ? 1 : 1 + pan`. -/
def panR (pan : ℚ) : ℚ := if 0 < pan then 1 else 1 + pan

/-- The C `(int32_t)` cast of a float product: truncation toward zero. -/
def truncToInt (q : ℚ) : Int := Int.tdiv q.num (q.den : Int)

/-- Overwrite one stereo frame (two consecutive samples) of a buffer. -/
def writeFrame (buf : Nat → Int) (pos : Nat) (l r : Int) : Nat → Int :=
  fun j => if j = pos then l else if j = pos + 1 then r else buf j

/-- The recording copy loop:
`for (i = 0; i < frames && write_pos < max_samples - 1; i++) { ... }`.
Recursion is on the frames remaining; `i` is the frame index and `wp` the
write position (`playhead*2 + 2*i`). -/
def captureGo (chain : Nat → Int) (maxS : Nat) :
    Nat → Nat → Nat → (Nat → Int) → (Nat → Int)
  | 0, _, _, buf => buf
  | n + 1, i, wp, buf =>
      if wp < maxS - 1 then
        captureGo chain maxS n (i + 1) (wp + 2)
          (writeFrame buf wp (chain (i * 2)) (chain (i * 2 + 1)))
      else buf

/-- Recording capture for one track: copy the chain output into the buffer
from `playhead*2` (stopping at the capacity boundary), then extend `length`
to `(playhead+frames)*2` when that is larger and within `max_samples`. -/
def captureTrack (chain : Nat → Int) (playhead frames maxS : Nat) (tr : Track) : Track :=
  let buf := captureGo chain maxS frames 0 (playhead * 2) tr.buffer
  let newLength := (playhead + frames) * 2
  let len := if tr.length < newLength ∧ newLength ≤ maxS then newLength else tr.length
  { tr with buffer := buf, length := len }

/-- `max_samples = g_record_seconds * SAMPLE_RATE * NUM_CHANNELS`. -/
def maxSamplesOf (s : FTState) : Nat := s.recordSeconds * 44100 * 2

/-- The capture phase of the render block: while recording, every armed
track captures its own chain output.  (Captured tracks are excluded from
playback below, so the mixing phase only ever reads pre-block buffer
contents.) -/
def captureAll (s : FTState) (chain : Fin 4 → Nat → Int) (frames : Nat) : FTState :=
  if s.transport = .recording then
    { s with tracks := fun t =>
        if (s.tracks t).armed then
          captureTrack (chain t) s.playhead frames (maxSamplesOf s) (s.tracks t)
        else s.tracks t }
  else s

/-- One playback sample of a track at read position `rp`, with level and the
linear pan law applied and the float product truncated to int32. -/
def playSample (tr : Track) (rp : Nat) : Int × Int :=
  (truncToInt ((tr.buffer rp : ℚ) * tr.level * panL tr.pan),
   truncToInt ((tr.buffer (rp + 1) : ℚ) * tr.level * panR tr.pan))

/-- The per-track playback read loop.  On reaching `length`: wrap to
`loop_start*2` when looping is enabled with `loop_end > 0` (and read without
re-checking bounds, as the C code does), else break for the rest of the
block. -/
def playbackGo (tr : Track) (loopOn : Bool) (loopStart loopEnd : Nat) :
    Nat → Nat → List (Int × Int)
  | 0, _ => []
  | n + 1, rp =>
      if tr.length ≤ rp then
        if loopOn = true ∧ 0 < loopEnd then
          playSample tr (loopStart * 2) ::
            playbackGo tr loopOn loopStart loopEnd n (loopStart * 2 + 2)
        else []
      else
        playSample tr rp :: playbackGo tr loopOn loopStart loopEnd n (rp + 2)

/-- The playback contributions of one track for the block (empty unless the
track has material, the transport is playing or recording, and the track is
not the one being captured this block). -/
def trackPlaybackList (s : FTState) (tr : Track) (frames : Nat) : List (Int × Int) :=
  if 0 < tr.length ∧ (s.transport = .playing ∨ s.transport = .recording) ∧
      ¬(s.transport = .recording ∧ tr.armed = true) then
    playbackGo tr s.loopEnabled s.loopStart s.loopEnd frames (s.playhead * 2)
  else []

/-- Monitor contribution of one track at frame `i`: its live chain output
through the same level/pan law, when monitoring is on and a chain patch is
loaded. -/
def monitorAt (tr : Track) (ch : Nat → Int) (i : Nat) : Int × Int :=
  if tr.monitoring = true ∧ tr.hasChain = true then
    (truncToInt ((ch (i * 2) : ℚ) * tr.level * panL tr.pan),
     truncToInt ((ch (i * 2 + 1) : ℚ) * tr.level * panR tr.pan))
  else (0, 0)

/-- What a track would add to the mix at frame `i` were it not excluded:
playback sample (or zero once the read loop has stopped) plus monitor
sample. -/
def eligibleContribAt (s : FTState) (t : Fin 4) (chain : Fin 4 → Nat → Int)
    (frames i : Nat) : Int × Int :=
  let p := (trackPlaybackList s (s.tracks t) frames).getD i (0, 0)
  let m := monitorAt (s.tracks t) (chain t) i
  (p.1 + m.1, p.2 + m.2)

/-- The two `continue` guards of the track loop:
`if (track->muted) continue;  if (g_any_solo && !track->solo) continue;`. -/
def trackExcluded (anySolo : Bool) (tr : Track) : Bool :=
  tr.muted || (anySolo && !tr.solo)

/-- Actual contribution of a track to the mix accumulator at frame `i`. -/
def trackContribAt (s : FTState) (t : Fin 4) (chain : Fin 4 → Nat → Int)
    (frames i : Nat) : Int × Int :=
  if trackExcluded s.anySolo (s.tracks t) then (0, 0)
  else eligibleContribAt s t chain frames i

/-- The 32-bit mix accumulator at frame `i`: sum of the four track
contributions (loop order t = 0..3). -/
def mixAt (s : FTState) (chain : Fin 4 → Nat → Int) (frames i : Nat) : Int × Int :=
  let c0 := trackContribAt s 0 chain frames i
  let c1 := trackContribAt s 1 chain frames i
  let c2 := trackContribAt s 2 chain frames i
  let c3 := trackContribAt s 3 chain frames i
  (c0.1 + c1.1 + c2.1 + c3.1, c0.2 + c1.2 + c2.2 + c3.2)

/-- Playhead advance with loop wrap, performed only while playing or
recording (never while stopped or counting in). -/
def advancePlayhead (s : FTState) (frames : Nat) : FTState :=
  if s.transport = .playing ∨ s.transport = .recording then
    let ph := s.playhead + frames
    if s.loopEnabled = true ∧ 0 < s.loopEnd ∧ s.loopEnd ≤ ph then
      { s with playhead := s.loopStart }
    else
      { s with playhead := ph }
  else s

/-- `finish_countin`: snap the playhead forward to the next beat boundary,
reset the count-in counter/total, switch to recording. -/
def finishCountin (s : FTState) : FTState :=
  let s1 :=
    if 0 < s.samplesPerBeat then
      if s.playhead % s.samplesPerBeat = 0 then s
      else { s with playhead := s.playhead + (s.samplesPerBeat - s.playhead % s.samplesPerBeat) }
    else s
  { s1 with countinCounter := 0, countinTotal := 0, transport := .recording }

/-- The playing/recording part of the metronome loop body: beat position is
`(playhead + i) % samples_per_beat` and a click fires when the metronome is
enabled and the position is within the 200-sample burst.  Returns the state
(unchanged) and `some beatPos` when the click-add branch executes. -/
def playRecSample (s : FTState) (i : Nat) : FTState × Option Nat :=
  if s.transport = .playing ∨ s.transport = .recording then
    let beatPos := (s.playhead + i) % s.samplesPerBeat
    (s, if s.metronomeEnabled = true ∧ beatPos < 200 then some beatPos else none)
  else (s, none)

/-- One iteration of the loop in `generate_metronome_click`.  During
count-in: completion is checked before generating the click (falling through
to the recording handling in the same sample); otherwise the click is always
active, with the beat position taken from the count-in counter once it is
non-negative, and the counter incremented. -/
def metSample (s : FTState) (i : Nat) : FTState × Option Nat :=
  if s.transport = .countin then
    if s.countinTotal ≤ s.countinCounter then
      playRecSample (finishCountin s) i
    else
      let click : Option Nat :=
        if 0 ≤ s.countinCounter then
          let bp := (s.countinCounter % (s.samplesPerBeat : Int)).toNat
          if bp < 200 then some bp else none
        else none
      ({ s with countinCounter := s.countinCounter + 1 }, click)
  else playRecSample s i

/-- The metronome sample loop over a block; one flag per sample. -/
def metGo : FTState → Nat → Nat → FTState × List (Option Nat)
  | s, 0, _ => (s, [])
  | s, n + 1, i =>
      let r := metSample s i
      let rest := metGo r.1 n (i + 1)
      (rest.1, r.2 :: rest.2)

/-- `generate_metronome_click`: no-op when `samples_per_beat` is not positive
or the transport is stopped. -/
def metronomeClick (s : FTState) (frames : Nat) : FTState × List (Option Nat) :=
  if s.samplesPerBeat = 0 then (s, [])
  else if s.transport = .stopped then (s, [])
  else metGo s frames 0

/-- The state transition and click placement of one `plugin_render_block`
call: capture, playhead advance (with loop wrap), then the metronome. -/
def renderTransition (s : FTState) (chain : Fin 4 → Nat → Int) (frames : Nat) :
    FTState × List (Option Nat) :=
  metronomeClick (advancePlayhead (captureAll s chain frames) frames) frames

/-- Value added by the click sub-buffer at one frame: the (already int16)
waveform sample saturated into the zeroed click buffer, or 0 with no
click. -/
def clickVal (cw : Nat → Int) : Option Nat → Int
  | none => 0
  | some bp => clamp16 (0 + cw bp)

/-- `plugin_render_block`: returns the post-block state and the output block
as a list of stereo frames, each the saturated sum of the mix accumulator
and the metronome click.  `cw` abstracts the click waveform table (see the
header comment). -/
def render (s : FTState) (chain : Fin 4 → Nat → Int) (cw : Nat → Int)
    (frames : Nat) : FTState × List (Int × Int) :=
  let t := renderTransition s chain frames
  (t.1, (List.range frames).map fun i =>
    let m := mixAt s chain frames i
    let c := clickVal cw (t.2.getD i none)
    (clamp16 (m.1 + c), clamp16 (m.2 + c)))

/-- States reachable from module load by control calls and render calls
(the host contract bounds blocks at 128 frames). -/
inductive Reachable : FTState → Prop where
  | init : Reachable initState
  | cmd {s : FTState} (c : Cmd) : Reachable s → Reachable (step s c)
  | render {s : FTState} (chain : Fin 4 → Nat → Int) (cw : Nat → Int)
      {frames : Nat} (hf : frames ≤ 128) : Reachable s →
      Reachable (render s chain cw frames).1

/-! ## Auxiliary definitions for the claims -/

/-- Modelled from the spec's wording `samples_per_beat =
round(sample_rate*60/tempo_bpm)`: division rounded to the nearest integer
(the instances under study are not ties, so the tie rule is immaterial). -/
def specRoundDiv (a b : Nat) : Nat := (2 * a + b) / (2 * b)

/-- Modelled from the spec's wording for `record_seconds`: `secs` clamped to
at least 10 and at most the 300-second maximum capacity. -/
def specClampRecordSeconds (n : Int) : Int := max 10 (min n 300)

/-- The click flag produced by the playing/recording branch of the metronome
loop for timeline sample `j`. -/
def playRecFlag (s : FTState) (j : Nat) : Option Nat :=
  if s.metronomeEnabled = true ∧ (s.playhead + j) % s.samplesPerBeat < 200 then
    some ((s.playhead + j) % s.samplesPerBeat)
  else none

/-- The state invariant behind the track-length bound: the record limit never
exceeds 300 s, and every track length stays within the fixed buffer capacity
`TRACK_BUFFER_SIZE = 300*44100*2`. -/
def Inv (s : FTState) : Prop :=
  s.recordSeconds ≤ 300 ∧ ∀ t, (s.tracks t).length ≤ 26460000

/-- Silent chain collaborator. -/
def zeroChain : Fin 4 → Nat → Int := fun _ _ => 0

/-- Chain collaborator producing the constant sample 1000 on every track. -/
def chain1000 : Fin 4 → Nat → Int := fun _ _ => 1000

/-- A concrete nonzero click waveform table. -/
def cwConst : Nat → Int := fun _ => 100

/-- Scenario state for the solo/mute claim, reached by: arm track 0, record,
render one 128-frame block of live audio 1000, toggle record off (back to
playing), mute track 0, solo track 0, return to start.  Track 0 then has
recorded material, `muted = solo = true`, the solo flag cached, the
transport playing and the playhead at 0. -/
def c1state : FTState :=
  step (step (step (step (render (step (step initState (.toggleArm (some 0)))
    .transportRecord) chain1000 cwConst 128).1 .transportRecord)
    (.trackMute 0)) (.trackSolo 0)) .gotoStart

/-- Scenario state for the metronome claim: metronome enabled, then play
(playhead 0, tempo 120, samples_per_beat 22050). -/
def c2state : FTState :=
  step (step initState (.metronome 1)) .transportPlay

/-- Trace for the record-limit claim: arm track 0, jump 5 bars forward
(playhead 441000), record (no count-in by default), render one 128-frame
block (track 0 length becomes 882256), then lower the record limit to 10 s
(max_samples 882000). -/
def c4state : FTState :=
  step (render (step (step (step initState (.toggleArm (some 0)))
    (.jumpBars 5)) .transportRecord) zeroChain cwConst 128).1
    (.recordSeconds 10)

/-- Stopped, track 0 armed, count-in enabled. -/
def c5stateA : FTState := step (step initState (.toggleArm (some 0))) (.countin 1)

/-- Stopped, track 0 armed, count-in disabled. -/
def c5stateB : FTState := step initState (.toggleArm (some 0))

/-- Playing, track 0 armed, count-in enabled (for the punch-in case). -/
def c5stateC : FTState :=
  step (step (step initState (.toggleArm (some 0))) (.countin 1)) .transportPlay

/-- A count-in state whose counter (88195) is still below its 4-beat total
(88200), with an unaligned playhead: a 128-frame render completes the
count-in mid-block, at sample offset 5. -/
def c6state : FTState :=
  { initState with
    transport := .countin
    countinCounter := 88195
    countinTotal := 88200
    playhead := 5 }

/-- A count-in state reached by commands: arm track 0, enable count-in,
record (stopped → count-in). -/
def c10state : FTState :=
  step (step (step initState (.toggleArm (some 0))) (.countin 1)) .transportRecord

/-! ## Helper lemmas -/

theorem playRecSample_fst (s : FTState) (i : Nat) : (playRecSample s i).1 = s := by
  unfold playRecSample
  split <;> rfl

theorem finishCountin_transport (s : FTState) : (finishCountin s).transport = .recording := rfl

theorem finishCountin_counter (s : FTState) : (finishCountin s).countinCounter = 0 := rfl

theorem finishCountin_total (s : FTState) : (finishCountin s).countinTotal = 0 := rfl

theorem finishCountin_tracks (s : FTState) : (finishCountin s).tracks = s.tracks := by
  unfold finishCountin
  dsimp only
  split
  · split <;> rfl
  · rfl

theorem finishCountin_recordSeconds (s : FTState) :
    (finishCountin s).recordSeconds = s.recordSeconds := by
  unfold finishCountin
  dsimp only
  split
  · split <;> rfl
  · rfl

theorem finishCountin_playhead_mod (s : FTState) (h : 0 < s.samplesPerBeat) :
    (finishCountin s).playhead % s.samplesPerBeat = 0 := by
  unfold finishCountin
  dsimp only
  rw [if_pos h]
  split
  · assumption
  · rename_i hne
    have hd := Nat.div_add_mod s.playhead s.samplesPerBeat
    have hr : s.playhead % s.samplesPerBeat < s.samplesPerBeat := Nat.mod_lt _ h
    have key : s.playhead + (s.samplesPerBeat - s.playhead % s.samplesPerBeat)
        = s.samplesPerBeat * (s.playhead / s.samplesPerBeat + 1) := by
      have hm : s.samplesPerBeat * (s.playhead / s.samplesPerBeat + 1)
          = s.samplesPerBeat * (s.playhead / s.samplesPerBeat) + s.samplesPerBeat := by ring
      omega
    rw [key, Nat.mul_mod_right]

theorem metSample_fst_of_active (s : FTState) (i : Nat)
    (h : s.transport = .playing ∨ s.transport = .recording) : (metSample s i).1 = s := by
  unfold metSample
  rw [if_neg (by rcases h with h | h <;> simp [h])]
  exact playRecSample_fst s i

theorem metSample_snd_of_active (s : FTState) (i : Nat)
    (h : s.transport = .playing ∨ s.transport = .recording) :
    (metSample s i).2 = playRecFlag s i := by
  unfold metSample playRecSample playRecFlag
  rw [if_neg (by rcases h with h | h <;> simp [h]), if_pos h]

theorem metGo_fst_of_active (s : FTState)
    (h : s.transport = .playing ∨ s.transport = .recording) :
    ∀ (n i : Nat), (metGo s n i).1 = s := by
  intro n
  induction n with
  | zero => intro i; rfl
  | succ m ih =>
      intro i
      show (metGo (metSample s i).1 m (i + 1)).1 = s
      rw [metSample_fst_of_active s i h]
      exact ih (i + 1)

theorem metGo_getD_of_active (s : FTState)
    (h : s.transport = .playing ∨ s.transport = .recording) :
    ∀ (n i k : Nat), k < n → (metGo s n i).2.getD k none = playRecFlag s (i + k) := by
  intro n
  induction n with
  | zero => intro i k hk; exact absurd hk (Nat.not_lt_zero k)
  | succ m ih =>
      intro i k hk
      show ((metSample s i).2 :: (metGo (metSample s i).1 m (i + 1)).2).getD k none = _
      rw [metSample_fst_of_active s i h, metSample_snd_of_active s i h]
      cases k with
      | zero => simp
      | succ k2 =>
          rw [List.getD_cons_succ]
          rw [ih (i + 1) k2 (by omega)]
          congr 1
          omega

/-- If the metronome loop enters in CountIn and the counter reaches the
total within the block (`total < counter + n`, counting one increment per
sample), the completion fires at the first sample where `counter ≥ total` —
at offset 0 or mid-block — and the rest of the block leaves the resulting
state untouched. -/
theorem metGo_countin_completes :
    ∀ (n : Nat) (s : FTState) (i : Nat),
      s.transport = .countin → 0 < s.samplesPerBeat → 0 < n →
      s.countinTotal < s.countinCounter + n →
      (metGo s n i).1.transport = .recording ∧
      (metGo s n i).1.countinCounter = 0 ∧
      (metGo s n i).1.countinTotal = 0 ∧
      (metGo s n i).1.playhead % s.samplesPerBeat = 0 := by
  intro n
  induction n with
  | zero => intro s i _ _ h3 _; exact absurd h3 (by omega)
  | succ m ih =>
      intro s i h1 h2 _ h4
      by_cases hc : s.countinTotal ≤ s.countinCounter
      · have hmet1 : (metSample s i).1 = finishCountin s := by
          unfold metSample
          rw [if_pos h1, if_pos hc, playRecSample_fst]
        have hfc : (finishCountin s).transport = .recording := finishCountin_transport s
        have hgo : (metGo s (m + 1) i).1 = finishCountin s := by
          show (metGo (metSample s i).1 m (i + 1)).1 = _
          rw [hmet1]
          exact metGo_fst_of_active (finishCountin s) (Or.inr hfc) m (i + 1)
        rw [hgo]
        exact ⟨hfc, finishCountin_counter s, finishCountin_total s,
          finishCountin_playhead_mod s h2⟩
      · have hmet1 : (metSample s i).1 = { s with countinCounter := s.countinCounter + 1 } := by
          unfold metSample
          rw [if_pos h1, if_neg hc]
        have hstep : (metGo s (m + 1) i).1
            = (metGo { s with countinCounter := s.countinCounter + 1 } m (i + 1)).1 := by
          show (metGo (metSample s i).1 m (i + 1)).1 = _
          rw [hmet1]
        rw [hstep]
        exact ih { s with countinCounter := s.countinCounter + 1 } (i + 1) h1 h2
          (by omega)
          (show s.countinTotal < s.countinCounter + 1 + (m : Int) by omega)

theorem metSample_tracks (s : FTState) (i : Nat) : (metSample s i).1.tracks = s.tracks := by
  unfold metSample
  split
  · split
    · rw [playRecSample_fst]; exact finishCountin_tracks s
    · rfl
  · rw [playRecSample_fst]

theorem metSample_recordSeconds (s : FTState) (i : Nat) :
    (metSample s i).1.recordSeconds = s.recordSeconds := by
  unfold metSample
  split
  · split
    · rw [playRecSample_fst]; exact finishCountin_recordSeconds s
    · rfl
  · rw [playRecSample_fst]

theorem metGo_tracks : ∀ (n : Nat) (s : FTState) (i : Nat),
    (metGo s n i).1.tracks = s.tracks := by
  intro n
  induction n with
  | zero => intro s i; rfl
  | succ m ih =>
      intro s i
      show (metGo (metSample s i).1 m (i + 1)).1.tracks = s.tracks
      rw [ih (metSample s i).1 (i + 1), metSample_tracks]

theorem metGo_recordSeconds : ∀ (n : Nat) (s : FTState) (i : Nat),
    (metGo s n i).1.recordSeconds = s.recordSeconds := by
  intro n
  induction n with
  | zero => intro s i; rfl
  | succ m ih =>
      intro s i
      show (metGo (metSample s i).1 m (i + 1)).1.recordSeconds = s.recordSeconds
      rw [ih (metSample s i).1 (i + 1), metSample_recordSeconds]

theorem metronomeClick_tracks (s : FTState) (f : Nat) :
    (metronomeClick s f).1.tracks = s.tracks := by
  unfold metronomeClick
  split
  · rfl
  · split
    · rfl
    · exact metGo_tracks f s 0

theorem metronomeClick_recordSeconds (s : FTState) (f : Nat) :
    (metronomeClick s f).1.recordSeconds = s.recordSeconds := by
  unfold metronomeClick
  split
  · rfl
  · split
    · rfl
    · exact metGo_recordSeconds f s 0

theorem captureAll_transport (s : FTState) (c : Fin 4 → Nat → Int) (f : Nat) :
    (captureAll s c f).transport = s.transport := by
  unfold captureAll; split <;> rfl

theorem captureAll_playhead (s : FTState) (c : Fin 4 → Nat → Int) (f : Nat) :
    (captureAll s c f).playhead = s.playhead := by
  unfold captureAll; split <;> rfl

theorem captureAll_metronomeEnabled (s : FTState) (c : Fin 4 → Nat → Int) (f : Nat) :
    (captureAll s c f).metronomeEnabled = s.metronomeEnabled := by
  unfold captureAll; split <;> rfl

theorem captureAll_samplesPerBeat (s : FTState) (c : Fin 4 → Nat → Int) (f : Nat) :
    (captureAll s c f).samplesPerBeat = s.samplesPerBeat := by
  unfold captureAll; split <;> rfl

theorem captureAll_recordSeconds (s : FTState) (c : Fin 4 → Nat → Int) (f : Nat) :
    (captureAll s c f).recordSeconds = s.recordSeconds := by
  unfold captureAll; split <;> rfl

theorem advancePlayhead_transport (s : FTState) (f : Nat) :
    (advancePlayhead s f).transport = s.transport := by
  unfold advancePlayhead
  split
  · dsimp only; split <;> rfl
  · rfl

theorem advancePlayhead_tracks (s : FTState) (f : Nat) :
    (advancePlayhead s f).tracks = s.tracks := by
  unfold advancePlayhead
  split
  · dsimp only; split <;> rfl
  · rfl

theorem advancePlayhead_metronomeEnabled (s : FTState) (f : Nat) :
    (advancePlayhead s f).metronomeEnabled = s.metronomeEnabled := by
  unfold advancePlayhead
  split
  · dsimp only; split <;> rfl
  · rfl

theorem advancePlayhead_samplesPerBeat (s : FTState) (f : Nat) :
    (advancePlayhead s f).samplesPerBeat = s.samplesPerBeat := by
  unfold advancePlayhead
  split
  · dsimp only; split <;> rfl
  · rfl

theorem advancePlayhead_recordSeconds (s : FTState) (f : Nat) :
    (advancePlayhead s f).recordSeconds = s.recordSeconds := by
  unfold advancePlayhead
  split
  · dsimp only; split <;> rfl
  · rfl

theorem length_updTrack (s : FTState) (t : Fin 4) (f : Track → Track)
    (hf : ∀ tr, (f tr).length = tr.length) (u : Fin 4) :
    ((updTrack s t f).tracks u).length = (s.tracks u).length := by
  unfold updTrack
  dsimp only
  split
  · rw [hf]
  · rfl

theorem inv_updTrack (s : FTState) (t : Fin 4) (f : Track → Track)
    (hf : ∀ tr, (f tr).length = tr.length) (h : Inv s) : Inv (updTrack s t f) :=
  ⟨h.1, fun u => by rw [length_updTrack s t f hf u]; exact h.2 u⟩

theorem inv_updTrack_zero (s : FTState) (t : Fin 4) (h : Inv s) :
    Inv (updTrack s t fun tr => { tr with buffer := fun _ => 0, length := 0 }) := by
  refine ⟨h.1, fun u => ?_⟩
  unfold updTrack
  dsimp only
  split
  · exact Nat.zero_le _
  · exact h.2 u

theorem inv_init : Inv initState := by
  constructor
  · norm_num [initState]
  · intro t
    simp [initState, initTrack]

theorem inv_step (s : FTState) (c : Cmd) (h : Inv s) : Inv (step s c) := by
  obtain ⟨hrs, hlen⟩ := h
  cases c with
  | selectTrack v =>
      simp only [step]
      cases trackIdx? v with
      | some t => exact ⟨hrs, hlen⟩
      | none => exact ⟨hrs, hlen⟩
  | toggleArm v =>
      simp only [step]
      cases (match v with | some iv => trackIdx? iv | none => some s.selected) with
      | some t =>
          exact inv_updTrack s t (fun tr => { tr with armed := !tr.armed })
            (fun tr => rfl) ⟨hrs, hlen⟩
      | none => exact ⟨hrs, hlen⟩
  | toggleMonitoring v =>
      simp only [step]
      cases (match v with | some iv => trackIdx? iv | none => some s.selected) with
      | some t =>
          exact inv_updTrack s t (fun tr => { tr with monitoring := !tr.monitoring })
            (fun tr => rfl) ⟨hrs, hlen⟩
      | none => exact ⟨hrs, hlen⟩
  | trackLevel t x =>
      simp only [step]
      cases trackIdx? t with
      | some u => exact inv_updTrack s u _ (fun tr => rfl) ⟨hrs, hlen⟩
      | none => exact ⟨hrs, hlen⟩
  | trackPan t x =>
      simp only [step]
      cases trackIdx? t with
      | some u => exact inv_updTrack s u _ (fun tr => rfl) ⟨hrs, hlen⟩
      | none => exact ⟨hrs, hlen⟩
  | trackMute t =>
      simp only [step]
      cases trackIdx? t with
      | some u => exact inv_updTrack s u _ (fun tr => rfl) ⟨hrs, hlen⟩
      | none => exact ⟨hrs, hlen⟩
  | trackSolo t =>
      simp only [step]
      cases trackIdx? t with
      | some u =>
          exact ⟨(inv_updTrack s u (fun tr => { tr with solo := !tr.solo })
                    (fun tr => rfl) ⟨hrs, hlen⟩).1,
                 (inv_updTrack s u (fun tr => { tr with solo := !tr.solo })
                    (fun tr => rfl) ⟨hrs, hlen⟩).2⟩
      | none => exact ⟨hrs, hlen⟩
  | clearTrack t =>
      simp only [step]
      cases trackIdx? t with
      | some u => exact inv_updTrack_zero s u ⟨hrs, hlen⟩
      | none => exact ⟨hrs, hlen⟩
  | transportPlay => exact ⟨hrs, hlen⟩
  | transportStop => exact ⟨hrs, hlen⟩
  | transportRecord =>
      simp only [step, toggleRecording, startRecording]
      split
      · exact ⟨hrs, hlen⟩
      · split
        · exact ⟨hrs, hlen⟩
        · split
          · exact ⟨hrs, hlen⟩
          · exact ⟨hrs, hlen⟩
  | gotoStart => exact ⟨hrs, hlen⟩
  | gotoEnd =>
      simp only [step]
      split
      · exact ⟨hrs, hlen⟩
      · exact ⟨hrs, hlen⟩
  | jumpBars n => exact ⟨hrs, hlen⟩
  | tempo n => exact ⟨hrs, hlen⟩
  | metronome n => exact ⟨hrs, hlen⟩
  | countin n => exact ⟨hrs, hlen⟩
  | midiRouting split => exact ⟨hrs, hlen⟩
  | toggleMidiRouting => exact ⟨hrs, hlen⟩
  | setLoopEnabled n => exact ⟨hrs, hlen⟩
  | loadPatchResult ok =>
      simp only [step]
      split
      · exact inv_updTrack s s.selected _ (fun tr => rfl) ⟨hrs, hlen⟩
      · exact ⟨hrs, hlen⟩
  | clearPatch t =>
      simp only [step]
      cases trackIdx? t with
      | some u => exact inv_updTrack s u _ (fun tr => rfl) ⟨hrs, hlen⟩
      | none => exact ⟨hrs, hlen⟩
  | toggleMute t =>
      simp only [step]
      cases trackIdx? t with
      | some u => exact inv_updTrack s u _ (fun tr => rfl) ⟨hrs, hlen⟩
      | none => exact ⟨hrs, hlen⟩
  | recordSeconds n =>
      simp only [step]
      split
      · rename_i hcond
        refine ⟨?_, hlen⟩
        show n.toNat ≤ 300
        omega
      · exact ⟨hrs, hlen⟩

theorem captureAll_length_le (s : FTState) (chain : Fin 4 → Nat → Int) (frames : Nat)
    (hrs : s.recordSeconds ≤ 300)
    (hlen : ∀ t, (s.tracks t).length ≤ 26460000) (t : Fin 4) :
    ((captureAll s chain frames).tracks t).length ≤ 26460000 := by
  unfold captureAll
  split
  · dsimp only
    split
    · unfold captureTrack maxSamplesOf
      dsimp only
      split
      · rename_i hcond
        omega
      · exact hlen t
    · exact hlen t
  · exact hlen t

theorem inv_render (s : FTState) (chain : Fin 4 → Nat → Int) (cw : Nat → Int)
    (frames : Nat) (h : Inv s) : Inv (render s chain cw frames).1 := by
  obtain ⟨hrs, hlen⟩ := h
  constructor
  · show (renderTransition s chain frames).1.recordSeconds ≤ 300
    unfold renderTransition
    rw [metronomeClick_recordSeconds, advancePlayhead_recordSeconds, captureAll_recordSeconds]
    exact hrs
  · intro t
    show ((renderTransition s chain frames).1.tracks t).length ≤ 26460000
    unfold renderTransition
    rw [metronomeClick_tracks, advancePlayhead_tracks]
    exact captureAll_length_le s chain frames hrs hlen t

theorem reachable_inv {s : FTState} (h : Reachable s) : Inv s := by
  induction h with
  | init => exact inv_init
  | cmd c _ ih => exact inv_step _ c ih
  | render chain cw hf _ ih => exact inv_render _ chain cw _ ih

/-! ## Claims -/

/-- Claim C1, counterexample.  The claim states that during a render with
any track soloed, a track with both `solo = true` and `muted = true` still
contributes its playback/monitor audio.  In `c1state` (reached by
commands), track 0 is soloed and muted with nonzero recorded material whose
un-excluded contribution at frame 0 would be (800, 800), yet its actual
contribution is (0, 0): the code tests `muted` before the solo logic, so
mute wins even for a soloed track. -/
theorem c1_counterexample :
    c1state.anySolo = true ∧ (c1state.tracks 0).solo = true ∧
    (c1state.tracks 0).muted = true ∧
    eligibleContribAt c1state 0 chain1000 128 0 = (800, 800) ∧
    trackContribAt c1state 0 chain1000 128 0 = (0, 0) := by
  refine ⟨by decide, by decide, by decide, ?_, by decide⟩
  have hA : eligibleContribAt c1state 0 chain1000 128 0 =
      ((playSample (c1state.tracks 0) 0).1 + 0, (playSample (c1state.tracks 0) 0).2 + 0) := rfl
  have hbuf0 : (c1state.tracks 0).buffer 0 = 1000 := by decide
  have hbuf1 : (c1state.tracks 0).buffer 1 = 1000 := by decide
  have hlev : (c1state.tracks 0).level = (4 : ℚ) / 5 := rfl
  have hpan : (c1state.tracks 0).pan = 0 := rfl
  have hB : playSample (c1state.tracks 0) 0 = (800, 800) := by
    unfold playSample
    rw [hbuf0, hbuf1, hlev, hpan]
    have hl : ((1000 : Int) : ℚ) * ((4 : ℚ) / 5) * panL 0 = 800 := by
      norm_num [panL]
    have hr : ((1000 : Int) : ℚ) * ((4 : ℚ) / 5) * panR 0 = 800 := by
      norm_num [panR]
    rw [hl, hr]
    have h800 : truncToInt (800 : ℚ) = 800 := by
      unfold truncToInt
      norm_num
    rw [h800]
  rw [hA, hB]
  rfl

/-- Claim C1, amended: when any track is soloed, a muted track contributes
nothing to playback/monitor mixing even when it is itself soloed; a
non-soloed track contributes nothing; and recording capture is unaffected
by the mute/solo flags. -/
theorem c1_amended (s : FTState) (t : Fin 4) (chain : Fin 4 → Nat → Int)
    (frames i : Nat) (hsolo : s.anySolo = true) :
    ((s.tracks t).muted = true → trackContribAt s t chain frames i = (0, 0)) ∧
    ((s.tracks t).solo = false → trackContribAt s t chain frames i = (0, 0)) ∧
    (∀ (tr : Track) (ch : Nat → Int) (ph fr mx : Nat) (m so : Bool),
      captureTrack ch ph fr mx { tr with muted := m, solo := so } =
        { captureTrack ch ph fr mx tr with muted := m, solo := so }) := by
  refine ⟨?_, ?_, ?_⟩
  · intro hm
    unfold trackContribAt
    rw [if_pos (by unfold trackExcluded; rw [hm]; rfl)]
  · intro hns
    unfold trackContribAt
    rw [if_pos (by unfold trackExcluded; rw [hns, hsolo]; simp)]
  · intro tr ch ph fr mx m so
    cases tr
    rfl

/-- Witness for the amended C1 at a concrete state: track 1 is not soloed
in `c1state`, so it contributes nothing. -/
theorem c1_amended_witness :
    c1state.anySolo = true ∧ (c1state.tracks 1).solo = false ∧
    trackContribAt c1state 1 chain1000 128 0 = (0, 0) :=
  ⟨by decide, by decide,
    (c1_amended c1state 1 chain1000 128 0 (by decide)).2.1 (by decide)⟩

/-- Claim C2, counterexample.  In `c2state` (Playing, metronome enabled,
playhead 0, samples_per_beat 22050) the claim predicts a click at every
offset of a 128-frame block, in particular at offset 127 since
(0+127) mod 22050 < 200; but the rendered output at offset 127 is silent
(with a nonzero waveform table), because the code advances the playhead
before generating the click. -/
theorem c2_counterexample :
    c2state.transport = .playing ∧ c2state.metronomeEnabled = true ∧
    c2state.playhead = 0 ∧ c2state.samplesPerBeat = 22050 ∧
    (c2state.playhead + 127) % c2state.samplesPerBeat < 200 ∧
    cwConst 127 ≠ 0 ∧
    (render c2state zeroChain cwConst 128).2.getD 127 (0, 0) = (0, 0) :=
  ⟨by decide, by decide, by decide, by decide, by decide, by decide, by decide⟩

/-- Claim C2, amended: while Playing or Recording with the metronome
enabled, the click is generated at block offset n iff
(P‚ + n) mod samples_per_beat < 200 where P‚ is the playhead at the END of
the call (the code advances the playhead, applying any loop wrap, before
generating the metronome). -/
theorem c2_amended (s : FTState) (chain : Fin 4 → Nat → Int) (frames n : Nat)
    (ht : s.transport = .playing ∨ s.transport = .recording)
    (hm : s.metronomeEnabled = true) (hs : 0 < s.samplesPerBeat)
    (hn : n < frames) :
    (renderTransition s chain frames).2.getD n none =
      (if ((renderTransition s chain frames).1.playhead + n) % s.samplesPerBeat < 200
       then some (((renderTransition s chain frames).1.playhead + n) % s.samplesPerBeat)
       else none) := by
  set s2 := advancePlayhead (captureAll s chain frames) frames with hs2def
  have h2t : s2.transport = s.transport := by
    rw [hs2def, advancePlayhead_transport, captureAll_transport]
  have h2m : s2.metronomeEnabled = s.metronomeEnabled := by
    rw [hs2def, advancePlayhead_metronomeEnabled, captureAll_metronomeEnabled]
  have h2s : s2.samplesPerBeat = s.samplesPerBeat := by
    rw [hs2def, advancePlayhead_samplesPerBeat, captureAll_samplesPerBeat]
  have hactive : s2.transport = .playing ∨ s2.transport = .recording := by
    rw [h2t]; exact ht
  have hrt : renderTransition s chain frames = metGo s2 frames 0 := by
    unfold renderTransition metronomeClick
    rw [← hs2def]
    rw [if_neg (by rw [h2s]; omega), if_neg (by rcases hactive with h | h <;> simp [h])]
  rw [hrt]
  rw [metGo_fst_of_active s2 hactive frames 0]
  rw [metGo_getD_of_active s2 hactive frames 0 n hn]
  unfold playRecFlag
  simp [h2m, hm, h2s]

/-- Witness for the amended C2: in `c2state`, a 128-frame block has final
playhead 128 and so receives a click at offset 10 (beat position 138). -/
theorem c2_amended_witness :
    (c2state.transport = .playing ∨ c2state.transport = .recording) ∧
    c2state.metronomeEnabled = true ∧ 0 < c2state.samplesPerBeat ∧ (10 : Nat) < 128 ∧
    (renderTransition c2state zeroChain 128).2.getD 10 none =
      (if ((renderTransition c2state zeroChain 128).1.playhead + 10) % c2state.samplesPerBeat < 200
       then some (((renderTransition c2state zeroChain 128).1.playhead + 10) % c2state.samplesPerBeat)
       else none) :=
  ⟨Or.inl (by decide), by decide, by decide, by decide,
    c2_amended c2state zeroChain 128 10 (Or.inl (by decide)) (by decide) (by decide) (by decide)⟩

/-- Claim C3, counterexample.  At tempo 43 the code stores
floor(44100·60/43) = 61534, while rounding to the nearest integer (the
claim) gives 61535. -/
theorem c3_counterexample :
    (step initState (.tempo 43)).samplesPerBeat = 61534 ∧
    specRoundDiv (44100 * 60) 43 = 61535 ∧ (61534 : Nat) ≠ 61535 :=
  ⟨by decide, by decide, by decide⟩

/-- Claim C3, amended: for every tempo T in [20,300] set via the tempo
control, samples_per_beat equals 44100·60/T rounded DOWN (C integer
division), not to the nearest integer. -/
theorem c3_amended (s : FTState) (T : Nat) (h1 : 20 ≤ T) (h2 : T ≤ 300) :
    (step s (.tempo (T : Int))).samplesPerBeat = 44100 * 60 / T := by
  simp only [step]
  rw [if_neg (by omega), if_neg (by omega)]
  congr 1

/-- Witness for the amended C3 at tempo 120: samples_per_beat 22050. -/
theorem c3_amended_witness :
    20 ≤ (120 : Nat) ∧ (120 : Nat) ≤ 300 ∧
    (step initState (.tempo ((120 : Nat) : Int))).samplesPerBeat = 44100 * 60 / 120 :=
  ⟨by decide, by decide, c3_amended initState 120 (by decide) (by decide)⟩

/-- Claim C4, counterexample.  `c4state` is reachable (arm track 0, jump 5
bars, record, render one 128-frame block, then lower the record limit to
10 s) and has track 0 length 882256 > 10·44100·2 = 882000: lowering
`record_seconds` after recording breaks the claimed invariant because the
stored lengths are never re-clamped. -/
theorem c4_counterexample :
    Reachable c4state ∧
    ¬((c4state.tracks 0).length ≤ c4state.recordSeconds * 44100 * 2) := by
  constructor
  · exact Reachable.cmd (.recordSeconds 10)
      (Reachable.render zeroChain cwConst (Nat.le_refl 128)
        (Reachable.cmd .transportRecord
          (Reachable.cmd (.jumpBars 5)
            (Reachable.cmd (.toggleArm (some 0)) Reachable.init))))
  · decide

/-- Claim C4, amended: in every reachable state, every track's length is
bounded by the fixed maximum capacity 300·44100·2 = 26460000 (i.e. by
`record_seconds·44100·2` for the maximal record limit, not the current
one). -/
theorem c4_amended (s : FTState) (h : Reachable s) :
    ∀ t, (s.tracks t).length ≤ 26460000 :=
  fun t => (reachable_inv h).2 t

/-- Witness for the amended C4 at the initial state. -/
theorem c4_amended_witness :
    Reachable initState ∧ (initState.tracks 0).length ≤ 26460000 :=
  ⟨Reachable.init, c4_amended initState Reachable.init 0⟩

/-- Claim C5 (confirmed): a record command from Stopped with a track armed
enters CountIn when count-in is enabled and Recording when it is disabled;
a record command while Playing with a track armed always goes straight to
Recording (punch-in), never CountIn. -/
theorem c5 (s : FTState) :
    (s.transport = .stopped → anyTrackArmed s = true → s.countinEnabled = true →
      (step s .transportRecord).transport = .countin) ∧
    (s.transport = .stopped → anyTrackArmed s = true → s.countinEnabled = false →
      (step s .transportRecord).transport = .recording) ∧
    (s.transport = .playing → anyTrackArmed s = true →
      (step s .transportRecord).transport = .recording) := by
  refine ⟨?_, ?_, ?_⟩
  · intro ht ha hc
    simp only [step, toggleRecording, startRecording]
    rw [if_neg (by simp [ht]), if_neg (by simp [ha]), if_pos ⟨hc, ht⟩]
  · intro ht ha hc
    simp only [step, toggleRecording, startRecording]
    rw [if_neg (by simp [ht]), if_neg (by simp [ha]), if_neg (by simp [hc])]
  · intro ht ha
    simp only [step, toggleRecording, startRecording]
    rw [if_neg (by simp [ht]), if_neg (by simp [ha]), if_neg (by simp [ht])]

/-- Witness for C5 on three concrete states: stopped+armed+count-in,
stopped+armed without count-in, and playing+armed with count-in enabled. -/
theorem c5_witness :
    (step c5stateA .transportRecord).transport = .countin ∧
    (step c5stateB .transportRecord).transport = .recording ∧
    (step c5stateC .transportRecord).transport = .recording :=
  ⟨(c5 c5stateA).1 (by decide) (by decide) (by decide),
   (c5 c5stateB).2.1 (by decide) (by decide) (by decide),
   (c5 c5stateC).2.2 (by decide) (by decide)⟩

/-- Claim C6 (confirmed): whenever the count-in completes during a render
block — the block starts in CountIn with samples_per_beat > 0 and the
counter, incremented once per sample, reaches its total at some offset of
the block (`total < counter + frames`), whether at offset 0 or mid-block —
the transport becomes Recording, the count-in counter and total are reset
to 0, and the playhead is aligned to a beat boundary. -/
theorem c6 (s : FTState) (chain : Fin 4 → Nat → Int) (cw : Nat → Int) (frames : Nat)
    (h1 : s.transport = .countin) (h2 : 0 < s.samplesPerBeat)
    (h3 : 0 < frames) (h4 : s.countinTotal < s.countinCounter + frames) :
    (render s chain cw frames).1.transport = .recording ∧
    (render s chain cw frames).1.countinCounter = 0 ∧
    (render s chain cw frames).1.countinTotal = 0 ∧
    (render s chain cw frames).1.playhead % s.samplesPerBeat = 0 := by
  have hca : captureAll s chain frames = s := by
    unfold captureAll; rw [if_neg (by simp [h1])]
  have hap : advancePlayhead s frames = s := by
    unfold advancePlayhead; rw [if_neg (by simp [h1])]
  have hrender : (render s chain cw frames).1 = (metGo s frames 0).1 := by
    show (renderTransition s chain frames).1 = _
    unfold renderTransition
    rw [hca, hap]
    unfold metronomeClick
    rw [if_neg (by omega), if_neg (by simp [h1])]
  rw [hrender]
  exact metGo_countin_completes frames s 0 h1 h2 h3 h4

/-- Witness for C6 with a mid-block completion: counter 88195 is still below
total 88200 at block entry, the completion fires at offset 5 of a 128-frame
render, and the unaligned playhead 5 lands on the beat boundary 22050. -/
theorem c6_witness :
    c6state.transport = .countin ∧ 0 < c6state.samplesPerBeat ∧ 0 < (128 : Nat) ∧
    c6state.countinTotal < c6state.countinCounter + (128 : Nat) ∧
    c6state.countinCounter < c6state.countinTotal ∧
    (render c6state zeroChain cwConst 128).1.transport = .recording ∧
    (render c6state zeroChain cwConst 128).1.countinCounter = 0 ∧
    (render c6state zeroChain cwConst 128).1.countinTotal = 0 ∧
    (render c6state zeroChain cwConst 128).1.playhead % c6state.samplesPerBeat = 0 :=
  ⟨by decide, by decide, by decide, by decide, by decide,
   (c6 c6state zeroChain cwConst 128 (by decide) (by decide) (by decide) (by decide)).1,
   (c6 c6state zeroChain cwConst 128 (by decide) (by decide) (by decide) (by decide)).2.1,
   (c6 c6state zeroChain cwConst 128 (by decide) (by decide) (by decide) (by decide)).2.2.1,
   (c6 c6state zeroChain cwConst 128 (by decide) (by decide) (by decide) (by decide)).2.2.2⟩

/-- Claim C7, counterexample.  Setting `record_seconds` to 5 leaves the
stored limit at its previous value 300; the claim's clamping semantics
would store 10. -/
theorem c7_counterexample :
    (step initState (.recordSeconds 5)).recordSeconds = 300 ∧
    specClampRecordSeconds 5 = 10 ∧ (300 : Nat) ≠ 10 :=
  ⟨by decide, by decide, by decide⟩

/-- Claim C7, amended: a `record_seconds` value in [10,300] is stored as
is; any value outside that range is ignored and the stored limit is
unchanged (not clamped). -/
theorem c7_amended (s : FTState) (n : Int) :
    ((10 ≤ n ∧ n ≤ 300) → (step s (.recordSeconds n)).recordSeconds = n.toNat) ∧
    (¬(10 ≤ n ∧ n ≤ 300) → (step s (.recordSeconds n)).recordSeconds = s.recordSeconds) := by
  constructor
  · intro h
    simp only [step]
    rw [if_pos h]
  · intro h
    simp only [step]
    rw [if_neg h]

/-- Witness for the amended C7 with the in-range value 50. -/
theorem c7_amended_witness :
    ((10 : Int) ≤ 50 ∧ (50 : Int) ≤ 300) ∧
    (step initState (.recordSeconds 50)).recordSeconds = (50 : Int).toNat :=
  ⟨by decide, (c7_amended initState 50).1 (by decide)⟩

/-- Claim C8 (confirmed): internal events go to the selected track;
external events go to the selected track in all-to-selected mode; in
split-by-channel mode an external event goes to track[channel] when the
low nibble of the status byte is < 4 and is dropped otherwise;
host-generated events go to the selected track. -/
theorem c8 (mode : MidiRoutingMode) (sel : Fin 4) (status : Nat) :
    routeMidi mode sel .internal status = some sel ∧
    routeMidi .selectedMode sel .external status = some sel ∧
    (∀ h : status % 16 < 4,
      routeMidi .splitChannels sel .external status = some ⟨status % 16, h⟩) ∧
    (4 ≤ status % 16 → routeMidi .splitChannels sel .external status = none) ∧
    routeMidi mode sel .host status = some sel := by
  refine ⟨rfl, rfl, ?_, ?_, rfl⟩
  · intro h
    unfold routeMidi
    rw [dif_pos h]
  · intro h
    unfold routeMidi
    rw [dif_neg (by omega)]

/-- Witness for C8: status 0x92 (channel 2) routes to track 2 in split
mode; status 0x95 (channel 5) is dropped. -/
theorem c8_witness :
    146 % 16 < 4 ∧
    routeMidi .splitChannels 0 .external 146 = some ⟨146 % 16, by decide⟩ ∧
    4 ≤ 149 % 16 ∧
    routeMidi .splitChannels 0 .external 149 = none :=
  ⟨by decide, (c8 .splitChannels 0 146).2.2.1 (by decide), by decide,
   (c8 .splitChannels 0 149).2.2.2.1 (by decide)⟩

/-- Claim C9 (confirmed): outside of Recording, a record command with no
track armed is rejected and the whole state — transport, playhead,
count-in counter/total and all per-track state — is unchanged. -/
theorem c9 (s : FTState) (h1 : s.transport ≠ .recording)
    (h2 : anyTrackArmed s = false) : step s .transportRecord = s := by
  simp only [step, toggleRecording, startRecording]
  rw [if_neg h1, if_pos h2]

/-- Witness for C9 at the initial state (stopped, nothing armed). -/
theorem c9_witness :
    initState.transport ≠ .recording ∧ anyTrackArmed initState = false ∧
    step initState .transportRecord = initState :=
  ⟨by decide, by decide, c9 initState (by decide) (by decide)⟩

/-- Claim C10 (confirmed): a record command during CountIn with a track
armed switches immediately to Recording and changes nothing else: the
playhead is not snapped and the count-in counter and total keep their
current values. -/
theorem c10 (s : FTState) (h1 : s.transport = .countin)
    (h2 : anyTrackArmed s = true) :
    step s .transportRecord = { s with transport := .recording } := by
  simp only [step, toggleRecording, startRecording]
  rw [if_neg (by simp [h1]), if_neg (by simp [h2]), if_neg (by simp [h1])]

/-- Witness for C10 at a count-in state reached by commands. -/
theorem c10_witness :
    c10state.transport = .countin ∧ anyTrackArmed c10state = true ∧
    step c10state .transportRecord = { c10state with transport := .recording } :=
  ⟨by decide, by decide, c10 c10state (by decide) (by decide)⟩

end FourTrack
